import Mathlib

/-
Verification of the pgtoolsservice protocol-hosting layer against its
natural-language specification.  The Python sources are shallowly embedded:
pure functions become Lean functions, the handler's exception control flow
becomes explicit result values, and the startup sequence of the main module
becomes a trace of events.  Where the repository's own code is not part of
the provided sources (the hosting internals, the validate/constants/markdown
utility modules), the definitions are modelled from the spec and say so in
their doc comments.
-/

/- ===================== Scripting service data model ===================== -/

/-- Python exception kinds raised by the embedded scripting code. -/
inductive PyError where
  | indexError
deriving DecidableEq, Repr

/-- The `str(e)` rendering of the embedded exception kinds. -/
def PyError.message : PyError → String
  | PyError.indexError => "list index out of range"

/-- One element of `params.scripting_objects`: a dict carrying the keys
`type`, `schema` and `name` (scripting_service.py lines 40-42). -/
structure ScriptingObject where
  type : String
  schema : String
  name : String
deriving DecidableEq, Repr

/-- `ObjectMetadata` as populated by `create_metadata`
(scripting_service.py lines 39-43). -/
structure ObjectMetadata where
  metadata_type_name : String
  schema : String
  name : String
deriving DecidableEq, Repr

/-- `ScriptAsParameters`: the fields read by the scripting service
(`owner_uri`, `operation`, `scripting_objects`). -/
structure ScriptAsParameters where
  owner_uri : String
  operation : String
  scripting_objects : List ScriptingObject
deriving DecidableEq, Repr

/-- `ScriptingService.create_metadata` (scripting_service.py lines 36-43):
reads `params.scripting_objects[0]` and copies its `type`, `schema` and
`name` entries into a fresh `ObjectMetadata`.  Indexing an empty Python
list with `[0]` raises `IndexError`, embedded as `Except.error`. -/
def create_metadata (params : ScriptAsParameters) : Except PyError ObjectMetadata :=
  match params.scripting_objects with
  | [] => Except.error PyError.indexError
  | obj :: _ =>
    Except.ok { metadata_type_name := obj.type, schema := obj.schema, name := obj.name }

/-- The view of the `ServiceProvider` that `ScriptingService.register` reads:
its backend-identity string (`.provider`) and whether a logger is attached. -/
structure ServiceProviderRef where
  provider : String
  hasLogger : Bool
deriving DecidableEq, Repr

/-- The mutable state of a `ScriptingService` instance: the stored provider
back-reference (`self._service_provider`) and the stored provider-identity
string (`self._provider`). -/
structure ScriptingServiceState where
  service_provider : Option ServiceProviderRef
  provider : Option String
deriving DecidableEq, Repr

/-- Modelled from the spec: the method name of the script-as request, the one
method the scripting service owns (the `SCRIPT_AS_REQUEST` constant lives in
the contracts module, which is not among the provided sources; spec scenario
5 names the method `scripting.scriptAs`). -/
def SCRIPT_AS_REQUEST : String := "scripting/scriptas"

/-- `ScriptingService.register` (scripting_service.py lines 24-34): stores the
provider on the instance, calls `server.set_request_handler` once for
`SCRIPT_AS_REQUEST`, and stores the provider-identity string.  The returned
list is the sequence of method names registered with the server's
request-handler registry during the call. -/
def ScriptingService.register (st : ScriptingServiceState) (sp : ServiceProviderRef) :
    ScriptingServiceState × List String :=
  ({ service_provider := some sp, provider := some sp.provider }, [SCRIPT_AS_REQUEST])

/- ===================== Script-as request handler ===================== -/

/-- Outcome of calling one collaborator: a normal return or a raised
exception carrying its `str(e)` message. -/
inductive Outcome (α : Type) where
  | ok (a : α)
  | raise (msg : String)
deriving DecidableEq, Repr

/-- The connection object returned by the connection service;
`connection.connection.broken` is embedded as the `broken` flag. -/
structure Conn where
  broken : Bool
deriving DecidableEq, Repr

/-- Outcomes of the collaborators invoked inside the handler's second `try`
block, for one attempt: the service-provider lookup
`self._service_provider[CONNECTION_SERVICE_NAME]`, the call
`connection_service.get_connection(...)` (which may also return `None`), and
`scripter.script(...)`.  These collaborators live outside the provided
sources, so their outcomes are environment inputs. -/
structure AttemptEnv where
  getService : Outcome Unit
  getConnection : Outcome (Option Conn)
  scripterScript : Outcome String
deriving DecidableEq, Repr

/-- A terminal action taken on the request context. -/
inductive Terminal where
  | response (owner_uri : String) (script : String)
  | error (msg : String)
deriving DecidableEq, Repr

/-- Result of one handler invocation: the terminal actions performed on the
request context in order, the message of an exception escaping the handler
(if any), and how many times the main `try` body was entered. -/
structure HResult where
  sent : List Terminal
  uncaught : Option String
  attempts : Nat
deriving DecidableEq, Repr

/-- How the handler's second `try` block exits: success with the script text,
or an exception with its message together with the state of the local
variable `connection` at that point - `none` when the assignment
`connection = ...` was never executed (the name is unbound), `some v` when it
was assigned value `v` (itself possibly Python `None`). -/
inductive TryExit where
  | success (script : String)
  | failed (msg : String) (conn : Option (Option Conn))
deriving DecidableEq, Repr

/-- The second `try` block of `_handle_script_as_request`
(scripting_service.py lines 53-62), run left to right: read
`params.operation`, look up the connection service, get the connection,
build the metadata via `create_metadata`, construct the `Scripter`, and run
`scripter.script`.  Records whether `connection` was assigned before the
exit. -/
def runTryBody (e : AttemptEnv) (p : ScriptAsParameters) : TryExit :=
  match e.getService with
  | Outcome.raise m => TryExit.failed m none
  | Outcome.ok _ =>
    match e.getConnection with
    | Outcome.raise m => TryExit.failed m none
    | Outcome.ok conn =>
      match create_metadata p with
      | Except.error err => TryExit.failed err.message (some conn)
      | Except.ok _ =>
        match e.scripterScript with
        | Outcome.raise m => TryExit.failed m (some conn)
        | Outcome.ok s => TryExit.success s

/-- Modelled from the spec: the message of the exception raised by
`utils.validate.is_not_none('params', params)` when `params` is `None`
(the validate module is not among the provided sources). -/
def validateNoneMsg : String := "Parameter params is None"

/-- The message of the `UnboundLocalError` raised when the `except` clause
evaluates `connection is not None` while `connection` was never assigned. -/
def unboundLocalMsg : String :=
  "local variable connection referenced before assignment"

/-- The message of the `AttributeError` raised at `self._service_provider.logger.warn`
when no logger is attached (the access is unguarded on line 65). -/
def loggerNoneMsg : String := "NoneType object has no attribute warn"

/-- `ScriptingService._handle_script_as_request`
(scripting_service.py lines 46-68), with `_request_error` (lines 70-73)
inlined as a `Terminal.error` action.  `logger` says whether
`self._service_provider.logger` is attached; `env` gives the collaborator
outcomes of the attempt performed with a given `retry_state`; `params` is
`none` for Python `None`.  The recursion mirrors the source's recursive
self-call with `retry_state=True`. -/
def handle_script_as_request (logger : Bool) (env : Bool → AttemptEnv)
    (params : Option ScriptAsParameters) (retry_state : Bool) : HResult :=
  match params with
  | none => { sent := [Terminal.error validateNoneMsg], uncaught := none, attempts := 0 }
  | some p =>
    match runTryBody (env retry_state) p with
    | TryExit.success s =>
      { sent := [Terminal.response p.owner_uri s], uncaught := none, attempts := 1 }
    | TryExit.failed m bound =>
      match bound with
      | none =>
        { sent := [], uncaught := some unboundLocalMsg, attempts := 1 }
      | some none =>
        { sent := [Terminal.error m], uncaught := none, attempts := 1 }
      | some (some c) =>
        if h : (c.broken && !retry_state) = true then
          if logger then
            let r := handle_script_as_request logger env (some p) true
            { sent := r.sent, uncaught := r.uncaught, attempts := r.attempts + 1 }
          else
            { sent := [], uncaught := some loggerNoneMsg, attempts := 1 }
        else
          { sent := [Terminal.error m], uncaught := none, attempts := 1 }
termination_by (if retry_state then 0 else 1)
decreasing_by
  simp only [Bool.and_eq_true, Bool.not_eq_true'] at h
  simp [h.2]

/- ===================== NodeCollection ===================== -/

/-- An element of a `NodeCollection`: the `oid` (Python `Optional[int]`) and
`name` properties read by `__getitem__` (node_object.py lines 322-325). -/
structure NItem where
  oid : Option Int
  name : String
deriving DecidableEq, Repr

/-- A Python index value as classified by `__getitem__`: an `int`, a `str`,
or anything else. -/
inductive PyIndex where
  | int (n : Int)
  | str (s : String)
  | other
deriving DecidableEq, Repr

/-- Outcome of `NodeCollection.__getitem__`: the matching item, or the raised
`NameError` / `TypeError`. -/
inductive GetItemResult where
  | found (x : NItem)
  | nameError
  | typeError
deriving DecidableEq, Repr

/-- `NodeCollection` (node_object.py lines 291-298): a generator producing
the item list, and the `_items_impl` cache (`none` when not yet loaded). -/
structure NodeCollection where
  generator : Unit → List NItem
  items_impl : Option (List NItem)

/-- The `_items` property (node_object.py lines 300-308): the cached list
when loaded, otherwise the generator's output.  When the cache is filled it
holds a previous generator run, so this list is the items in generator
order in either case. -/
def NodeCollection.items (c : NodeCollection) : List NItem :=
  match c.items_impl with
  | some l => l
  | none => c.generator ()

/-- `NodeCollection.__getitem__` (node_object.py lines 310-335).  The
isinstance checks run before `self._items` is touched, so the `TypeError`
branch never loads the items.  The second component reports whether the
generator was invoked during the call (the cache was empty and `_items` was
read). -/
def NodeCollection.getitem (c : NodeCollection) (index : PyIndex) : GetItemResult × Bool :=
  match index with
  | PyIndex.int n =>
    (match c.items.find? (fun x => x.oid == some n) with
     | some x => GetItemResult.found x
     | none => GetItemResult.nameError,
     c.items_impl.isNone)
  | PyIndex.str s =>
    (match c.items.find? (fun x => x.name == s) with
     | some x => GetItemResult.found x
     | none => GetItemResult.nameError,
     c.items_impl.isNone)
  | PyIndex.other => (GetItemResult.typeError, false)

/- ===================== Host main module ===================== -/

/-- The command-line arguments of ossdbtoolsservice_main.py (lines 106-125).
For `action=store_true` options the field records whether the flag was
present on the command line; for valued options `none` means the option was
not supplied. -/
structure Cli where
  generate_markdown : Bool
  input : Option String
  enable_web_server : Bool
  listen_address : Option String
  listen_port : Option Int
  debug_web_server : Bool
  disable_keep_alive : Bool
  enable_dynamic_cors : Bool
  log_dir : Option String
  console_logging : Bool
  provider : Option String
deriving DecidableEq, Repr

/-- The environment variables consulted by the main module (lines 97-103).
`debug_web_server` is part of the process environment model; the program
never reads it (no `os.getenv` call exists for it). -/
structure EnvVars where
  log_dir : Option String
  enable_web_server : Option String
  listen_address : Option String
  listen_port : Option String
  console_logging : Option String
  disable_keep_alive : Option String
  enable_dynamic_cors : Option String
  debug_web_server : Option String
deriving DecidableEq, Repr

/-- The values a config.ini file may carry for the configuration surface
(lines 86-94).  `debug_web_server` is part of the file model; the program's
defaults dict has no entry for it (no `config.get` call exists for it). -/
structure ConfigFile where
  log_dir : Option String
  enable_web_server : Option String
  listen_address : Option String
  listen_port : Option String
  console_logging : Option String
  disable_keep_alive : Option String
  enable_dynamic_cors : Option String
  debug_web_server : Option String
deriving DecidableEq, Repr

/-- The fully resolved argument values after `parser.parse_args()`. -/
structure Resolved where
  generate_markdown : Bool
  input : Option String
  enable_web_server : Bool
  listen_address : String
  listen_port : Int
  debug_web_server : Bool
  disable_keep_alive : Bool
  enable_dynamic_cors : Bool
  log_dir : String
  console_logging : Bool
  provider : Option String
deriving DecidableEq, Repr

/-- The configuration resolution of ossdbtoolsservice_main.py lines 86-125:
config-file values with built-in fallbacks form the defaults dict; each
environment variable overrides its default via `os.getenv(name, default)`;
the argparse defaults are set to that layer, so a supplied command-line
value wins.  `store_true` flags resolve to true when the flag is present,
otherwise to `str_to_bool` of the env/config layer.  `--debug-web-server`
(line 113) is declared with no default from the env/config layers.  `s2b`
embeds `str_to_bool` and `s2i` embeds `int(...)` (both defined outside the
provided sources); `builtinLogDir` embeds
`os.path.dirname(sys.argv[0])`. -/
def resolveArgs (s2b : String → Bool) (s2i : String → Int) (builtinLogDir : String)
    (cfg : ConfigFile) (env : EnvVars) (cli : Cli) : Resolved :=
  let d_log_dir := cfg.log_dir.getD builtinLogDir
  let d_ews := cfg.enable_web_server.getD "false"
  let d_addr := cfg.listen_address.getD "0.0.0.0"
  let d_port := cfg.listen_port.getD "8443"
  let d_console := cfg.console_logging.getD "false"
  let d_dka := cfg.disable_keep_alive.getD "false"
  let d_cors := cfg.enable_dynamic_cors.getD "false"
  let e_log_dir := env.log_dir.getD d_log_dir
  let e_ews := env.enable_web_server.getD d_ews
  let e_addr := env.listen_address.getD d_addr
  let e_port := env.listen_port.getD d_port
  let e_console := env.console_logging.getD d_console
  let e_dka := env.disable_keep_alive.getD d_dka
  let e_cors := env.enable_dynamic_cors.getD d_cors
  { generate_markdown := cli.generate_markdown
    input := cli.input
    enable_web_server := cli.enable_web_server || s2b e_ews
    listen_address := cli.listen_address.getD e_addr
    listen_port := cli.listen_port.getD (s2i e_port)
    debug_web_server := cli.debug_web_server
    disable_keep_alive := cli.disable_keep_alive || s2b e_dka
    enable_dynamic_cors := cli.enable_dynamic_cors || s2b e_cors
    log_dir := cli.log_dir.getD e_log_dir
    console_logging := cli.console_logging || s2b e_console
    provider := cli.provider }

/-- Modelled from the spec: the configuration surface "sourced with
precedence command-line > environment variable > config-file default >
built-in default" for every item, including the debug-web-server flag
(spec section 6).  Flags absent everywhere default to false ("false"). -/
def specResolve (s2b : String → Bool) (s2i : String → Int) (builtinLogDir : String)
    (cfg : ConfigFile) (env : EnvVars) (cli : Cli) : Resolved :=
  { generate_markdown := cli.generate_markdown
    input := cli.input
    enable_web_server :=
      cli.enable_web_server || s2b (env.enable_web_server.getD (cfg.enable_web_server.getD "false"))
    listen_address :=
      cli.listen_address.getD (env.listen_address.getD (cfg.listen_address.getD "0.0.0.0"))
    listen_port :=
      cli.listen_port.getD (s2i (env.listen_port.getD (cfg.listen_port.getD "8443")))
    debug_web_server :=
      cli.debug_web_server || s2b (env.debug_web_server.getD (cfg.debug_web_server.getD "false"))
    disable_keep_alive :=
      cli.disable_keep_alive || s2b (env.disable_keep_alive.getD (cfg.disable_keep_alive.getD "false"))
    enable_dynamic_cors :=
      cli.enable_dynamic_cors || s2b (env.enable_dynamic_cors.getD (cfg.enable_dynamic_cors.getD "false"))
    log_dir := cli.log_dir.getD (env.log_dir.getD (cfg.log_dir.getD builtinLogDir))
    console_logging :=
      cli.console_logging || s2b (env.console_logging.getD (cfg.console_logging.getD "false"))
    provider := cli.provider }

/-- The input byte stream of the stream-mode server.  -/
inductive InputSrc where
  | file (path : String)
  | stdinPipe
deriving DecidableEq, Repr

/-- Observable events of the main module's startup sequence.  Server
construction events carry the constructor arguments (`constructStream` also
writes to standard output; `constructWeb` is the keyword-argument
construction of lines 40-48).  `startServer` is `server.start()`, after
which - modelled from the spec - reading and dispatch begin; no frame is
read before it. -/
inductive Ev where
  | constructStream (src : InputSrc)
  | constructWeb (addr : String) (port : Int)
      (disable_keep_alive : Bool) (debug_web_server : Bool) (enable_dynamic_cors : Bool)
      (cfg : ConfigFile)
  | registerService (name : String)
  | initializeService (name : String)
  | generateMarkdown
  | startServer
  | waitForExit
deriving DecidableEq, Repr

/-- The fixed service map of `_create_server_init` (lines 54-67), in its
textual order.  The name strings mirror the constants-module identifiers
(the constants module is outside the provided sources; the values are
opaque names here). -/
def serviceNames : List String :=
  ["admin", "capabilities", "connection", "disaster_recovery", "language", "metadata",
   "object_explorer", "query_execution", "scripting", "workspace", "edit_data", "task"]

/-- Modelled from the spec: `ServiceProvider(...).initialize()` performs the
two-phase startup over the fixed service map - `register(provider)` on every
service in map order, then `initialize()` on every service (spec section
4.6; the ServiceProvider implementation is not among the provided
sources). -/
def providerStartup : List Ev :=
  serviceNames.map Ev.registerService ++ serviceNames.map Ev.initializeService

/-- The stdin selection of lines 127-129 and 187-189: `if args.input:` opens
the named file, and the Python truthiness test means an empty string falls
through to standard input. -/
def streamInput (input : Option String) : InputSrc :=
  match input with
  | some s => if s = "" then InputSrc.stdinPipe else InputSrc.file s
  | none => InputSrc.stdinPipe

/-- The provider check of lines 155-160: `if args.provider:` (truthiness, so
an empty string skips the check) asserts membership in
`SUPPORTED_PROVIDERS`, embedded as the `supported` list. -/
def providerOk (supported : List String) : Option String → Bool
  | none => true
  | some s => if s = "" then true else supported.contains s

/-- Abnormal process terminations before the server is created. -/
inductive Abort where
  | assertionError
  | parserError
deriving DecidableEq, Repr

/-- Outcome of a run that reached the end of the main module: whether a
console handler was attached to the logger, and the event trace. -/
structure MainRun where
  consoleAttached : Bool
  trace : List Ev
deriving DecidableEq, Repr

/-- Predicate picking out server-construction events. -/
def isConstruct : Ev → Bool
  | Ev.constructStream _ => true
  | Ev.constructWeb _ _ _ _ _ _ => true
  | _ => false

/-- The `__main__` block of ossdbtoolsservice_main.py (lines 73-216), as the
sequence of startup events it performs: resolve the configuration, check the
provider (line 158-160, `AssertionError` on an unsupported one), reject
`--console-logging` without `--enable-web-server` (lines 175-177,
`parser.error`), attach the console handler when requested, construct
exactly one server - web mode with the keyword arguments, stream mode from
the selected input and standard output - then run the ServiceProvider
two-phase startup, and finally either generate Markdown or call `start()`
and `wait_for_exit()` (lines 210-216).  An abort carries the construction
events performed before it (always none: both aborts precede server
creation). -/
def runMain (s2b : String → Bool) (s2i : String → Int) (builtinLogDir : String)
    (supported : List String) (cfg : ConfigFile) (env : EnvVars) (cli : Cli) :
    Except (Abort × List Ev) MainRun :=
  let a := resolveArgs s2b s2i builtinLogDir cfg env cli
  if providerOk supported a.provider = false then
    Except.error (Abort.assertionError, [])
  else if a.console_logging && !a.enable_web_server then
    Except.error (Abort.parserError, [])
  else
    let constructEv :=
      if a.enable_web_server then
        Ev.constructWeb a.listen_address a.listen_port a.disable_keep_alive
          a.debug_web_server a.enable_dynamic_cors cfg
      else
        Ev.constructStream (streamInput a.input)
    let tail := if a.generate_markdown then [Ev.generateMarkdown] else [Ev.startServer, Ev.waitForExit]
    Except.ok { consoleAttached := a.console_logging, trace := constructEv :: providerStartup ++ tail }

/- ===================== Concrete fixtures ===================== -/

/-- Concrete script-as parameters used by the evaluation theorems. -/
def pX : ScriptAsParameters :=
  { owner_uri := "file:untitled", operation := "CREATE",
    scripting_objects := [{ type := "Table", schema := "public", name := "t1" }] }

/-- Collaborator outcomes where the connection lookup
(`connection_service.get_connection`) raises, on any attempt. -/
def lookupFailEnv : Bool → AttemptEnv := fun _ =>
  { getService := Outcome.ok (), getConnection := Outcome.raise "connection lookup failed",
    scripterScript := Outcome.ok "SCRIPT" }

/-- Attempt environments for the retry scenario: the first attempt (with
`retry_state` false) succeeds through the connection stage, yielding
connection `c`, then fails in `scripter.script` with message `m1`; the
retry attempt runs against `env2`. -/
def retryScenarioEnv (c : Conn) (m1 : String) (env2 : AttemptEnv) : Bool → AttemptEnv :=
  fun rs =>
    if rs then env2
    else { getService := Outcome.ok (), getConnection := Outcome.ok (some c),
           scripterScript := Outcome.raise m1 }

/-- Retry-attempt outcomes where `get_connection` raises again. -/
def retryLookupFail : AttemptEnv :=
  { getService := Outcome.ok (), getConnection := Outcome.raise "second failure",
    scripterScript := Outcome.ok "SCRIPT" }

/-- Retry-attempt outcomes where the reacquired connection is healthy but
`scripter.script` fails again. -/
def retryScriptFail : AttemptEnv :=
  { getService := Outcome.ok (), getConnection := Outcome.ok (some { broken := false }),
    scripterScript := Outcome.raise "second failure" }

/-- Boolean interpretations and fixtures for concrete main-module runs. -/
def s2bFalse : String → Bool := fun _ => false

/-- A `str_to_bool` interpretation accepting exactly the string "true". -/
def s2bLit : String → Bool := fun s => s == "true"

/-- A trivial integer interpretation for port strings. -/
def s2iZero : String → Int := fun _ => 0

/-- A config file carrying no values. -/
def cfgEmpty : ConfigFile :=
  { log_dir := none, enable_web_server := none, listen_address := none, listen_port := none,
    console_logging := none, disable_keep_alive := none, enable_dynamic_cors := none,
    debug_web_server := none }

/-- An environment with no relevant variables set. -/
def envEmpty : EnvVars :=
  { log_dir := none, enable_web_server := none, listen_address := none, listen_port := none,
    console_logging := none, disable_keep_alive := none, enable_dynamic_cors := none,
    debug_web_server := none }

/-- An environment whose only setting is `DEBUG_WEB_SERVER=true`. -/
def envDebugSet : EnvVars :=
  { log_dir := none, enable_web_server := none, listen_address := none, listen_port := none,
    console_logging := none, disable_keep_alive := none, enable_dynamic_cors := none,
    debug_web_server := some "true" }

/-- A command line with no flags and no valued options. -/
def cliQuiet : Cli :=
  { generate_markdown := false, input := none, enable_web_server := false,
    listen_address := none, listen_port := none, debug_web_server := false,
    disable_keep_alive := false, enable_dynamic_cors := false, log_dir := none,
    console_logging := false, provider := none }

/-- The bare command line plus `--generate-markdown`. -/
def cliMd : Cli :=
  { generate_markdown := true, input := none, enable_web_server := false,
    listen_address := none, listen_port := none, debug_web_server := false,
    disable_keep_alive := false, enable_dynamic_cors := false, log_dir := none,
    console_logging := false, provider := none }

/-- The bare command line plus `--console-logging` (without
`--enable-web-server`). -/
def cliConsole : Cli :=
  { generate_markdown := false, input := none, enable_web_server := false,
    listen_address := none, listen_port := none, debug_web_server := false,
    disable_keep_alive := false, enable_dynamic_cors := false, log_dir := none,
    console_logging := true, provider := none }

/-- The bare command line plus `--input` with an empty string value. -/
def cliEmptyInput : Cli :=
  { generate_markdown := false, input := some "", enable_web_server := false,
    listen_address := none, listen_port := none, debug_web_server := false,
    disable_keep_alive := false, enable_dynamic_cors := false, log_dir := none,
    console_logging := false, provider := none }

/- ===================== Theorems ===================== -/

/-- Any successful run of the main module has the fixed shape: one server
construction event, then the two-phase startup events, then the mode tail. -/
theorem runMain_ok_shape (s2b : String → Bool) (s2i : String → Int) (bld : String)
    (sup : List String) (cfg : ConfigFile) (env : EnvVars) (cli : Cli) (run : MainRun)
    (h : runMain s2b s2i bld sup cfg env cli = Except.ok run) :
    run = { consoleAttached := (resolveArgs s2b s2i bld cfg env cli).console_logging,
            trace :=
              (if (resolveArgs s2b s2i bld cfg env cli).enable_web_server then
                Ev.constructWeb (resolveArgs s2b s2i bld cfg env cli).listen_address
                  (resolveArgs s2b s2i bld cfg env cli).listen_port
                  (resolveArgs s2b s2i bld cfg env cli).disable_keep_alive
                  (resolveArgs s2b s2i bld cfg env cli).debug_web_server
                  (resolveArgs s2b s2i bld cfg env cli).enable_dynamic_cors cfg
              else
                Ev.constructStream (streamInput (resolveArgs s2b s2i bld cfg env cli).input)) ::
              providerStartup ++
              (if (resolveArgs s2b s2i bld cfg env cli).generate_markdown then
                [Ev.generateMarkdown]
              else
                [Ev.startServer, Ev.waitForExit]) } := by
  simp only [runMain] at h
  split at h
  · exact absurd h (by simp)
  · split at h
    · exact absurd h (by simp)
    · exact (Except.ok.injEq _ _ ▸ h).symm

/-- Every element of the left list is in `(l1 ++ l2).take n` as soon as
`take n` reaches past `l1`, witnessed by an element of the take that is not
in `l1`. -/
theorem mem_take_of_not_mem_left {α : Type} {l1 l2 : List α} {n : Nat} {x y : α}
    (hx : x ∈ (l1 ++ l2).take n) (hnx : x ∉ l1) (hy : y ∈ l1) :
    y ∈ (l1 ++ l2).take n := by
  rw [List.take_append_eq_append_take] at hx ⊢
  rcases List.mem_append.mp hx with h1 | h2
  · exact absurd ((List.take_sublist n l1).subset h1) hnx
  · have hlen : l1.length < n := by
      by_contra hle
      push_neg at hle
      have hz : n - l1.length = 0 := Nat.sub_eq_zero_of_le hle
      rw [hz] at h2
      simp at h2
    have hall : l1.take n = l1 := List.take_of_length_le (Nat.le_of_lt hlen)
    rw [hall]
    exact List.mem_append.mpr (Or.inl hy)

/-- Any invocation of the handler with `retry_state` true enters the try
body exactly once: the recursive retry is guarded by `not retry_state`. -/
theorem handle_true_attempts (logger : Bool) (env : Bool → AttemptEnv) (p : ScriptAsParameters) :
    (handle_script_as_request logger env (some p) true).attempts = 1 := by
  unfold handle_script_as_request
  cases hr : runTryBody (env true) p with
  | success s => rfl
  | failed m bound =>
    cases bound with
    | none => rfl
    | some oc =>
      cases oc with
      | none => rfl
      | some c2 => simp

/-- With `retry_state` true, a try body failing after the `connection`
assignment leads straight to `_request_error` with that failure's
message. -/
theorem handle_true_sent_failed (logger : Bool) (env : Bool → AttemptEnv)
    (p : ScriptAsParameters) (m : String) (bound : Option Conn)
    (hrun : runTryBody (env true) p = TryExit.failed m (some bound)) :
    (handle_script_as_request logger env (some p) true).sent = [Terminal.error m] := by
  unfold handle_script_as_request
  rw [hrun]
  cases bound with
  | none => rfl
  | some c2 => simp

/-- With `retry_state` false, a logger attached, and the first try body
failing after a broken connection was assigned, the handler's outcome is
exactly the retried invocation's outcome with the attempt count bumped. -/
theorem handle_false_retry (env : Bool → AttemptEnv) (p : ScriptAsParameters)
    (m : String) (c : Conn)
    (hrun : runTryBody (env false) p = TryExit.failed m (some (some c)))
    (hb : c.broken = true) :
    handle_script_as_request true env (some p) false =
      { sent := (handle_script_as_request true env (some p) true).sent,
        uncaught := (handle_script_as_request true env (some p) true).uncaught,
        attempts := (handle_script_as_request true env (some p) true).attempts + 1 } := by
  conv_lhs => unfold handle_script_as_request
  rw [hrun]
  simp [hb]

/-- In a trace of the shape construct-event, startup events, tail, any
take that contains the start event contains every registration and
initialization event. -/
theorem startup_prefix_mem (c : Ev) (tl : List Ev) (n : Nat) (s : String)
    (hc : Ev.startServer ≠ c)
    (hmem : Ev.startServer ∈ ((c :: providerStartup) ++ tl).take n)
    (hs : s ∈ serviceNames) :
    Ev.registerService s ∈ ((c :: providerStartup) ++ tl).take n ∧
    Ev.initializeService s ∈ ((c :: providerStartup) ++ tl).take n := by
  have hreg : Ev.registerService s ∈ c :: providerStartup :=
    List.mem_cons_of_mem _ (List.mem_append_left _ (List.mem_map_of_mem _ hs))
  have hini : Ev.initializeService s ∈ c :: providerStartup :=
    List.mem_cons_of_mem _ (List.mem_append_right _ (List.mem_map_of_mem _ hs))
  have hno : Ev.startServer ∉ c :: providerStartup := by
    intro hbad
    rcases List.mem_cons.mp hbad with hh | hh
    · exact hc hh
    · exact absurd hh (by decide)
  exact ⟨mem_take_of_not_mem_left hmem hno hreg, mem_take_of_not_mem_left hmem hno hini⟩

/-- C3: in any successful run of the main module, every prefix of the
startup trace that already contains the `start()` invocation contains the
registration and the initialization of every service in the fixed map: the
two-phase startup completes before the server starts reading and
dispatching. -/
theorem host_two_phase_before_start :
    ∀ (s2b : String → Bool) (s2i : String → Int) (bld : String) (sup : List String)
      (cfg : ConfigFile) (env : EnvVars) (cli : Cli) (run : MainRun) (n : Nat) (s : String),
      runMain s2b s2i bld sup cfg env cli = Except.ok run →
      Ev.startServer ∈ run.trace.take n →
      s ∈ serviceNames →
      Ev.registerService s ∈ run.trace.take n ∧ Ev.initializeService s ∈ run.trace.take n := by
  intro s2b s2i bld sup cfg env cli run n s hok hmem hs
  have hshape := runMain_ok_shape s2b s2i bld sup cfg env cli run hok
  subst hshape
  cases hw : (resolveArgs s2b s2i bld cfg env cli).enable_web_server <;>
    simp only [hw, if_true, if_false, Bool.false_eq_true, Bool.true_eq_false] at hmem ⊢
  · exact startup_prefix_mem _ _ n s (by simp) hmem hs
  · exact startup_prefix_mem _ _ n s (by simp) hmem hs

/-- Witness for C3 at a concrete bare command line: taking the trace up to
and including the `start()` event, the scripting service's registration and
initialization are both present. -/
theorem host_two_phase_before_start_witness :
    Ev.registerService "scripting" ∈
      (MainRun.trace
        { consoleAttached := false,
          trace := Ev.constructStream InputSrc.stdinPipe ::
            providerStartup ++ [Ev.startServer, Ev.waitForExit] }).take 26 ∧
    Ev.initializeService "scripting" ∈
      (MainRun.trace
        { consoleAttached := false,
          trace := Ev.constructStream InputSrc.stdinPipe ::
            providerStartup ++ [Ev.startServer, Ev.waitForExit] }).take 26 :=
  host_two_phase_before_start s2bFalse s2iZero "." [] cfgEmpty envEmpty cliQuiet
    { consoleAttached := false,
      trace := Ev.constructStream InputSrc.stdinPipe ::
        providerStartup ++ [Ev.startServer, Ev.waitForExit] }
    26 "scripting" rfl (by decide) (by decide)

/-- C5: with `--generate-markdown` the run emits the Markdown-generation
event after the completed two-phase startup and never invokes `start()` or
`wait_for_exit()`; without the flag the run ends with `start()` followed by
`wait_for_exit()` and generates no Markdown. -/
theorem host_markdown_mode_no_start :
    ∀ (s2b : String → Bool) (s2i : String → Int) (bld : String) (sup : List String)
      (cfg : ConfigFile) (env : EnvVars) (cli : Cli) (run : MainRun),
      runMain s2b s2i bld sup cfg env cli = Except.ok run →
      (cli.generate_markdown = true →
        Ev.startServer ∉ run.trace ∧ Ev.waitForExit ∉ run.trace ∧
        ∃ pre, run.trace = pre ++ [Ev.generateMarkdown] ∧
          ∀ s ∈ serviceNames,
            Ev.registerService s ∈ pre ∧ Ev.initializeService s ∈ pre) ∧
      (cli.generate_markdown = false →
        Ev.generateMarkdown ∉ run.trace ∧
        ∃ pre, run.trace = pre ++ [Ev.startServer, Ev.waitForExit]) := by
  intro s2b s2i bld sup cfg env cli run hok
  have hshape := runMain_ok_shape s2b s2i bld sup cfg env cli run hok
  subst hshape
  have hmdeq : (resolveArgs s2b s2i bld cfg env cli).generate_markdown = cli.generate_markdown :=
    rfl
  constructor
  · intro hmd
    rw [hmdeq, hmd]
    simp only [if_true]
    cases hw : (resolveArgs s2b s2i bld cfg env cli).enable_web_server <;>
      simp only [hw, if_true, if_false, Bool.false_eq_true, Bool.true_eq_false] <;>
    · refine ⟨?_, ?_, _ :: providerStartup, rfl, ?_⟩
      · intro hbad
        rw [show ∀ (c : Ev) (t : List Ev), c :: providerStartup ++ t = (c :: providerStartup) ++ t
            from fun _ _ => rfl] at hbad
        rcases List.mem_append.mp hbad with hh | hh
        · rcases List.mem_cons.mp hh with h2 | h2
          · cases h2
          · exact absurd h2 (by decide)
        · exact absurd hh (by decide)
      · intro hbad
        rw [show ∀ (c : Ev) (t : List Ev), c :: providerStartup ++ t = (c :: providerStartup) ++ t
            from fun _ _ => rfl] at hbad
        rcases List.mem_append.mp hbad with hh | hh
        · rcases List.mem_cons.mp hh with h2 | h2
          · cases h2
          · exact absurd h2 (by decide)
        · exact absurd hh (by decide)
      · intro s hs
        exact ⟨List.mem_cons_of_mem _ (List.mem_append_left _ (List.mem_map_of_mem _ hs)),
               List.mem_cons_of_mem _ (List.mem_append_right _ (List.mem_map_of_mem _ hs))⟩
  · intro hmd
    rw [hmdeq, hmd]
    simp only [Bool.false_eq_true, if_false]
    cases hw : (resolveArgs s2b s2i bld cfg env cli).enable_web_server <;>
      simp only [hw, if_true, if_false, Bool.false_eq_true, Bool.true_eq_false] <;>
    · refine ⟨?_, _ :: providerStartup, rfl⟩
      intro hbad
      rw [show ∀ (c : Ev) (t : List Ev), c :: providerStartup ++ t = (c :: providerStartup) ++ t
          from fun _ _ => rfl] at hbad
      rcases List.mem_append.mp hbad with hh | hh
      · rcases List.mem_cons.mp hh with h2 | h2
        · cases h2
        · exact absurd h2 (by decide)
      · exact absurd hh (by decide)

/-- Witness for C5: with `--generate-markdown` on an otherwise bare command
line, `start()` never appears in the trace. -/
theorem host_markdown_mode_no_start_witness :
    Ev.startServer ∉
      (MainRun.trace
        { consoleAttached := false,
          trace := Ev.constructStream InputSrc.stdinPipe ::
            providerStartup ++ [Ev.generateMarkdown] }) :=
  ((host_markdown_mode_no_start s2bFalse s2iZero "." [] cfgEmpty envEmpty cliMd
      { consoleAttached := false,
        trace := Ev.constructStream InputSrc.stdinPipe ::
          providerStartup ++ [Ev.generateMarkdown] }
      rfl).1 rfl).1

/-- C7 (amended): every successful run constructs exactly one host server,
selected by the resolved enable-web-server flag - web mode with the keyword
arguments (listen address, listen port, keep-alive, debug, dynamic CORS,
config), stream mode from the selected input source; the stream input is
the `--input` file when a non-empty path was supplied and standard input
otherwise (an empty `--input` value falls back to standard input). -/
theorem host_single_server_construction :
    ∀ (s2b : String → Bool) (s2i : String → Int) (bld : String) (sup : List String)
      (cfg : ConfigFile) (env : EnvVars) (cli : Cli) (run : MainRun),
      runMain s2b s2i bld sup cfg env cli = Except.ok run →
      run.trace.filter isConstruct =
        [if (resolveArgs s2b s2i bld cfg env cli).enable_web_server then
          Ev.constructWeb (resolveArgs s2b s2i bld cfg env cli).listen_address
            (resolveArgs s2b s2i bld cfg env cli).listen_port
            (resolveArgs s2b s2i bld cfg env cli).disable_keep_alive
            (resolveArgs s2b s2i bld cfg env cli).debug_web_server
            (resolveArgs s2b s2i bld cfg env cli).enable_dynamic_cors cfg
        else
          Ev.constructStream (streamInput cli.input)] ∧
      (∀ s, cli.input = some s → s ≠ "" → streamInput cli.input = InputSrc.file s) ∧
      ((cli.input = none ∨ cli.input = some "") → streamInput cli.input = InputSrc.stdinPipe) := by
  intro s2b s2i bld sup cfg env cli run hok
  have hshape := runMain_ok_shape s2b s2i bld sup cfg env cli run hok
  subst hshape
  refine ⟨?_, ?_, ?_⟩
  · cases hw : (resolveArgs s2b s2i bld cfg env cli).enable_web_server <;>
      cases hm : (resolveArgs s2b s2i bld cfg env cli).generate_markdown <;>
        simp only [hw, hm, if_true, if_false, Bool.false_eq_true, Bool.true_eq_false] <;>
          simp [isConstruct, providerStartup, serviceNames, List.filter]
    all_goals rfl
  · intro s hsome hne
    rw [hsome]
    simp [streamInput, hne]
  · intro hcase
    rcases hcase with h | h <;> rw [h] <;> simp [streamInput]

/-- Witness for C7 on a bare command line: the stream server is the only
construction event and reads standard input. -/
theorem host_single_server_construction_witness :
    (MainRun.trace
      { consoleAttached := false,
        trace := Ev.constructStream InputSrc.stdinPipe ::
          providerStartup ++ [Ev.startServer, Ev.waitForExit] }).filter isConstruct =
      [Ev.constructStream InputSrc.stdinPipe] := by
  have h := (host_single_server_construction s2bFalse s2iZero "." [] cfgEmpty envEmpty cliQuiet
    { consoleAttached := false,
      trace := Ev.constructStream InputSrc.stdinPipe ::
        providerStartup ++ [Ev.startServer, Ev.waitForExit] } rfl).1
  exact h

/-- C7 counterexample: with `--input` supplied as the empty string (and the
web server disabled), the stream server is constructed from standard input,
not from the named input file - the Python truthiness test `if args.input:`
ignores an empty value, so the claim "the --input file when given" fails at
this input. -/
theorem host_empty_input_uses_stdin :
    cliEmptyInput.input = some "" ∧
    runMain s2bFalse s2iZero "." [] cfgEmpty envEmpty cliEmptyInput =
      Except.ok
        { consoleAttached := false,
          trace := Ev.constructStream InputSrc.stdinPipe ::
            providerStartup ++ [Ev.startServer, Ev.waitForExit] } ∧
    InputSrc.stdinPipe ≠ InputSrc.file "" := by
  refine ⟨rfl, rfl, by simp⟩

/-- C8: when the resolved console-logging flag is true and the resolved
enable-web-server flag is false (and the provider check passes, which runs
first), the process aborts with the parser error carrying no construction
events - before any server is constructed or started; and in every
successful run the console handler is attached iff both flags are true. -/
theorem host_console_logging_requires_web :
    ∀ (s2b : String → Bool) (s2i : String → Int) (bld : String) (sup : List String)
      (cfg : ConfigFile) (env : EnvVars) (cli : Cli),
      (providerOk sup (resolveArgs s2b s2i bld cfg env cli).provider = true →
       (resolveArgs s2b s2i bld cfg env cli).console_logging = true →
       (resolveArgs s2b s2i bld cfg env cli).enable_web_server = false →
       runMain s2b s2i bld sup cfg env cli = Except.error (Abort.parserError, [])) ∧
      (∀ run, runMain s2b s2i bld sup cfg env cli = Except.ok run →
        run.consoleAttached =
          ((resolveArgs s2b s2i bld cfg env cli).console_logging &&
           (resolveArgs s2b s2i bld cfg env cli).enable_web_server)) := by
  intro s2b s2i bld sup cfg env cli
  constructor
  · intro hp hc hwb
    simp [runMain, hp, hc, hwb]
  · intro run hok
    simp only [runMain] at hok
    split at hok
    · exact absurd hok (by simp)
    · split at hok
      · exact absurd hok (by simp)
      · next hguard =>
        cases hok
        cases hcl : (resolveArgs s2b s2i bld cfg env cli).console_logging <;>
          cases hwb : (resolveArgs s2b s2i bld cfg env cli).enable_web_server <;>
            simp_all

/-- Witness for C8: `--console-logging` on a bare command line (web server
disabled) aborts with the parser error and no construction events. -/
theorem host_console_logging_requires_web_witness :
    runMain s2bFalse s2iZero "." [] cfgEmpty envEmpty cliConsole =
      Except.error (Abort.parserError, []) :=
  (host_console_logging_requires_web s2bFalse s2iZero "." [] cfgEmpty envEmpty cliConsole).1
    rfl rfl rfl

/-- C4 (amended): all configuration items except the debug-web-server flag
agree with the spec's four-level precedence (command line over environment
over config file over built-in default); the debug-web-server flag is
resolved from the command line alone. -/
theorem config_precedence_amended :
    ∀ (s2b : String → Bool) (s2i : String → Int) (bld : String)
      (cfg : ConfigFile) (env : EnvVars) (cli : Cli),
      (resolveArgs s2b s2i bld cfg env cli).log_dir =
        (specResolve s2b s2i bld cfg env cli).log_dir ∧
      (resolveArgs s2b s2i bld cfg env cli).enable_web_server =
        (specResolve s2b s2i bld cfg env cli).enable_web_server ∧
      (resolveArgs s2b s2i bld cfg env cli).listen_address =
        (specResolve s2b s2i bld cfg env cli).listen_address ∧
      (resolveArgs s2b s2i bld cfg env cli).listen_port =
        (specResolve s2b s2i bld cfg env cli).listen_port ∧
      (resolveArgs s2b s2i bld cfg env cli).console_logging =
        (specResolve s2b s2i bld cfg env cli).console_logging ∧
      (resolveArgs s2b s2i bld cfg env cli).disable_keep_alive =
        (specResolve s2b s2i bld cfg env cli).disable_keep_alive ∧
      (resolveArgs s2b s2i bld cfg env cli).enable_dynamic_cors =
        (specResolve s2b s2i bld cfg env cli).enable_dynamic_cors ∧
      (resolveArgs s2b s2i bld cfg env cli).debug_web_server = cli.debug_web_server := by
  intro s2b s2i bld cfg env cli
  exact ⟨rfl, rfl, rfl, rfl, rfl, rfl, rfl, rfl⟩

/-- C4 counterexample: with `DEBUG_WEB_SERVER=true` in the environment and
no `--debug-web-server` on the command line, the code resolves the debug
flag to false while the spec's precedence resolves it to true: the
environment layer for this item does not exist in the code. -/
theorem config_debug_env_ignored :
    (resolveArgs s2bLit s2iZero "." cfgEmpty envDebugSet cliQuiet).debug_web_server = false ∧
    (specResolve s2bLit s2iZero "." cfgEmpty envDebugSet cliQuiet).debug_web_server = true ∧
    envDebugSet.debug_web_server = some "true" ∧
    cliQuiet.debug_web_server = false := by
  exact ⟨rfl, rfl, rfl, rfl⟩

/-- C1: evaluation of the handler at the failing input.  With valid (non
`None`) parameters but a connection lookup that raises, the handler performs
zero terminal actions on the request context: the `except` clause evaluates
`connection is not None` while `connection` was never assigned, so an
`UnboundLocalError` escapes the handler.  The claim's guarantee of exactly
one `send_response`/`send_error` fails here. -/
theorem scripting_handler_zero_terminal_on_lookup_failure :
    (handle_script_as_request true lookupFailEnv (some pX) false).sent = [] ∧
    (handle_script_as_request true lookupFailEnv (some pX) false).uncaught = some unboundLocalMsg ∧
    (handle_script_as_request true lookupFailEnv (some pX) false).attempts = 1 := by
  have hrun : runTryBody (lookupFailEnv false) pX =
      TryExit.failed "connection lookup failed" none := by
    simp [lookupFailEnv, runTryBody]
  refine ⟨?_, ?_, ?_⟩ <;> (unfold handle_script_as_request; rw [hrun])

/-- C2 counterexample: first attempt fails in `scripter.script` with the
connection broken, the retry is performed, and the retry fails inside
`get_connection`.  No error response reaches the client at all - in
particular none carrying the second failure's message - because the retry's
`except` clause raises `UnboundLocalError`. -/
theorem scripting_retry_second_failure_lost :
    (handle_script_as_request true
        (retryScenarioEnv { broken := true } "first failure" retryLookupFail)
        (some pX) false).attempts = 2 ∧
    (handle_script_as_request true
        (retryScenarioEnv { broken := true } "first failure" retryLookupFail)
        (some pX) false).sent = [] ∧
    (handle_script_as_request true
        (retryScenarioEnv { broken := true } "first failure" retryLookupFail)
        (some pX) false).sent ≠ [Terminal.error "second failure"] ∧
    (handle_script_as_request true
        (retryScenarioEnv { broken := true } "first failure" retryLookupFail)
        (some pX) false).uncaught = some unboundLocalMsg := by
  have hrun1 : runTryBody (retryScenarioEnv { broken := true } "first failure" retryLookupFail false) pX =
      TryExit.failed "first failure" (some (some { broken := true })) := by
    simp [retryScenarioEnv, runTryBody, pX, create_metadata]
  have hrun2 : runTryBody (retryScenarioEnv { broken := true } "first failure" retryLookupFail true) pX =
      TryExit.failed "second failure" none := by
    simp [retryScenarioEnv, retryLookupFail, runTryBody]
  have h2 : handle_script_as_request true
      (retryScenarioEnv { broken := true } "first failure" retryLookupFail) (some pX) true =
      { sent := [], uncaught := some unboundLocalMsg, attempts := 1 } := by
    unfold handle_script_as_request
    rw [hrun2]
  have h1 := handle_false_retry
    (retryScenarioEnv { broken := true } "first failure" retryLookupFail) pX
    "first failure" { broken := true } hrun1 rfl
  rw [h1, h2]
  refine ⟨rfl, rfl, ?_, rfl⟩
  simp

/-- C2 amended: when the first attempt fails after a broken connection was
assigned and a logger is attached, exactly one retry of the handler body is
performed (two attempts in total; the `retry_state` flag prevents a third),
and the handler's outcome is entirely that of the retry: in particular, a
retry that fails after the `connection` assignment sends exactly one error
response carrying the second failure's message. -/
theorem scripting_retry_once_second_outcome :
    ∀ (p : ScriptAsParameters) (c : Conn) (m1 : String) (env2 : AttemptEnv),
      c.broken = true →
      p.scripting_objects ≠ [] →
      ((handle_script_as_request true (retryScenarioEnv c m1 env2) (some p) false).attempts = 2 ∧
       (handle_script_as_request true (retryScenarioEnv c m1 env2) (some p) false).sent =
         (handle_script_as_request true (retryScenarioEnv c m1 env2) (some p) true).sent ∧
       (handle_script_as_request true (retryScenarioEnv c m1 env2) (some p) false).uncaught =
         (handle_script_as_request true (retryScenarioEnv c m1 env2) (some p) true).uncaught) ∧
      (∀ (c2 : Option Conn) (m2 : String),
        env2.getService = Outcome.ok () →
        env2.getConnection = Outcome.ok c2 →
        env2.scripterScript = Outcome.raise m2 →
        (handle_script_as_request true (retryScenarioEnv c m1 env2) (some p) false).sent =
          [Terminal.error m2]) := by
  intro p c m1 env2 hb hne
  obtain ⟨o, rest, hcons⟩ := List.exists_cons_of_ne_nil hne
  have hrun1 : runTryBody (retryScenarioEnv c m1 env2 false) p =
      TryExit.failed m1 (some (some c)) := by
    simp [retryScenarioEnv, runTryBody, create_metadata, hcons]
  have h1 := handle_false_retry (retryScenarioEnv c m1 env2) p m1 c hrun1 hb
  constructor
  · refine ⟨?_, ?_, ?_⟩
    · rw [h1]
      rw [handle_true_attempts]
    · rw [h1]
    · rw [h1]
  · intro c2 m2 hsvc hconn hscript
    have hrun2 : runTryBody (retryScenarioEnv c m1 env2 true) p =
        TryExit.failed m2 (some c2) := by
      simp [retryScenarioEnv, runTryBody, create_metadata, hcons, hsvc, hconn, hscript]
    rw [h1]
    exact handle_true_sent_failed true (retryScenarioEnv c m1 env2) p m2 c2 hrun2

/-- Witness for the amended C2 at concrete inputs: broken first connection,
first failure in the scripter, retry failing in the scripter again with a
healthy connection; the single error response carries the second message. -/
theorem scripting_retry_once_second_outcome_witness :
    (handle_script_as_request true
        (retryScenarioEnv { broken := true } "first failure" retryScriptFail)
        (some pX) false).sent = [Terminal.error "second failure"] :=
  (scripting_retry_once_second_outcome pX { broken := true } "first failure" retryScriptFail
      rfl (by simp [pX])).2
    (some { broken := false }) "second failure" rfl rfl rfl

/-- C6: `ScriptingService.register` registers exactly the one method the
service owns - the script-as request - with the server's request-handler
registry within the call, and stores the provider and its provider-identity
string on the service instance. -/
theorem scripting_register_spec :
    ∀ (st : ScriptingServiceState) (sp : ServiceProviderRef),
      (ScriptingService.register st sp).2 = [SCRIPT_AS_REQUEST] ∧
      (ScriptingService.register st sp).1.service_provider = some sp ∧
      (ScriptingService.register st sp).1.provider = some sp.provider := by
  intro st sp
  exact ⟨rfl, rfl, rfl⟩

/-- C9: `create_metadata` reads only the first element of
`params.scripting_objects`; for a non-empty list it returns metadata whose
fields are the first element's `type`, `schema` and `name`, and for an
empty list it raises `IndexError`. -/
theorem scripting_create_metadata_spec :
    ∀ (p : ScriptAsParameters),
      (∀ (o : ScriptingObject) (rest : List ScriptingObject),
        p.scripting_objects = o :: rest →
        create_metadata p =
          Except.ok { metadata_type_name := o.type, schema := o.schema, name := o.name }) ∧
      (p.scripting_objects = [] → create_metadata p = Except.error PyError.indexError) := by
  intro p
  constructor
  · intro o rest h
    simp [create_metadata, h]
  · intro h
    simp [create_metadata, h]

/-- Witness for C9 at a concrete parameter value with one scripting object. -/
theorem scripting_create_metadata_spec_witness :
    create_metadata
        { owner_uri := "u", operation := "create",
          scripting_objects := [{ type := "Table", schema := "public", name := "t1" }] } =
      Except.ok { metadata_type_name := "Table", schema := "public", name := "t1" } :=
  (scripting_create_metadata_spec _).1 _ [] rfl

/-- C10: `NodeCollection.__getitem__` with an int index returns the first
item in generator order whose oid equals the index; with a str index the
first whose name equals it; `NameError` when no item matches (stated as an
iff); and `TypeError` for any other index, without invoking the
generator. -/
theorem nodecoll_getitem_spec :
    ∀ (c : NodeCollection) (n : Int) (s : String) (x : NItem),
      ((c.getitem (PyIndex.int n)).1 = GetItemResult.found x →
        x.oid = some n ∧ ∃ pre post, c.items = pre ++ x :: post ∧ ∀ y ∈ pre, y.oid ≠ some n) ∧
      ((c.getitem (PyIndex.int n)).1 = GetItemResult.nameError ↔
        ∀ y ∈ c.items, y.oid ≠ some n) ∧
      ((c.getitem (PyIndex.str s)).1 = GetItemResult.found x →
        x.name = s ∧ ∃ pre post, c.items = pre ++ x :: post ∧ ∀ y ∈ pre, y.name ≠ s) ∧
      ((c.getitem (PyIndex.str s)).1 = GetItemResult.nameError ↔
        ∀ y ∈ c.items, y.name ≠ s) ∧
      c.getitem PyIndex.other = (GetItemResult.typeError, false) := by
  intro c n s x
  refine ⟨?_, ⟨?_, ?_⟩, ?_, ⟨?_, ?_⟩, rfl⟩
  · intro h
    simp only [NodeCollection.getitem] at h
    cases hf : c.items.find? (fun y => y.oid == some n) with
    | none => rw [hf] at h; simp at h
    | some y =>
      rw [hf] at h
      simp only [] at h
      cases h
      obtain ⟨hp, pre, post, heq, hall⟩ := List.find?_eq_some.mp hf
      refine ⟨by simpa using hp, pre, post, heq, ?_⟩
      intro z hz
      have := hall z hz
      simpa using this
  · intro h
    simp only [NodeCollection.getitem] at h
    cases hf : c.items.find? (fun y => y.oid == some n) with
    | none =>
      intro z hz
      have := List.find?_eq_none.mp hf z hz
      simpa using this
    | some y => rw [hf] at h; simp at h
  · intro hall
    simp only [NodeCollection.getitem]
    cases hf : c.items.find? (fun y => y.oid == some n) with
    | none => rfl
    | some y =>
      exfalso
      have hp := List.find?_some hf
      have hy := List.mem_of_find?_eq_some hf
      exact hall y hy (by simpa using hp)
  · intro h
    simp only [NodeCollection.getitem] at h
    cases hf : c.items.find? (fun y => y.name == s) with
    | none => rw [hf] at h; simp at h
    | some y =>
      rw [hf] at h
      simp only [] at h
      cases h
      obtain ⟨hp, pre, post, heq, hall⟩ := List.find?_eq_some.mp hf
      refine ⟨by simpa using hp, pre, post, heq, ?_⟩
      intro z hz
      have := hall z hz
      simpa using this
  · intro h
    simp only [NodeCollection.getitem] at h
    cases hf : c.items.find? (fun y => y.name == s) with
    | none =>
      intro z hz
      have := List.find?_eq_none.mp hf z hz
      simpa using this
    | some y => rw [hf] at h; simp at h
  · intro hall
    simp only [NodeCollection.getitem]
    cases hf : c.items.find? (fun y => y.name == s) with
    | none => rfl
    | some y =>
      exfalso
      have hp := List.find?_some hf
      have hy := List.mem_of_find?_eq_some hf
      exact hall y hy (by simpa using hp)

/-- Witness for C10: a concrete two-element collection, looked up by oid. -/
theorem nodecoll_getitem_spec_witness :
    (NItem.mk (some 2) "b").oid = some 2 ∧
    ∃ pre post,
      (NodeCollection.mk (fun _ => [NItem.mk (some 1) "a", NItem.mk (some 2) "b"]) none).items =
        pre ++ NItem.mk (some 2) "b" :: post ∧
      ∀ y ∈ pre, y.oid ≠ some 2 :=
  (nodecoll_getitem_spec
    (NodeCollection.mk (fun _ => [NItem.mk (some 1) "a", NItem.mk (some 2) "b"]) none)
    2 "" (NItem.mk (some 2) "b")).1 (by rfl)
